import Mathlib

/-
Verification of the repository's single source file, the Jupyter notebook
docs/tutorials/advanced/terra/pulse/adding_measurements.ipynb.

Part 1 embeds the notebook's code cells as a small Python-fragment AST,
transcribed cell by cell from the source.  Part 2 models, from the spec and
the notebook's own prose, the external framework semantics the notebook
exercises (measurement maps, memory-slot assignment, pulse-schedule
composition), since that framework code is not shipped under src/.
-/

set_option autoImplicit false

namespace Pulse

/-! ## Part 1: AST of the notebook's code cells -/

/-- Python module paths appearing in the notebook's import statements. -/
inductive Module where
  | qiskit
  | qiskit_pulse
  | qiskit_scheduler
  | qiskit_test_mock
  | qiskit_tools_jupyter
deriving DecidableEq

/-- Dotted path of each module, as written in the notebook. -/
def Module.path : Module → String
  | .qiskit => r"qiskit"
  | .qiskit_pulse => r"qiskit.pulse"
  | .qiskit_scheduler => r"qiskit.scheduler"
  | .qiskit_test_mock => r"qiskit.test.mock"
  | .qiskit_tools_jupyter => r"qiskit.tools.jupyter"

/-- Every identifier (imported symbol, variable, attribute or keyword name)
occurring in the notebook's code. -/
inductive Sym where
  | IBMQ
  | Schedule
  | measure_all
  | FakeAlmaden
  | measure
  | MeasureChannel
  | AcquireChannel
  | MemorySlot
  | GaussianSquare
  | Acquire
  | backend
  | sched
  | duration
  | measure_tx
  | measure_rx
  | measure_sched
  | acquire
  | draw
  | name
  | amp
  | sigma
  | width
  | qubits
  | qubit_mem_slots
deriving DecidableEq

/-- Jupyter line magics used in the final cell. -/
inductive MagicName where
  | qiskit_version_table
  | qiskit_copyright
deriving DecidableEq

/-- Atomic expressions: integer literals, decimal literals
(`dec m d` denotes m / 10 ^ d, so `dec 2 1` transcribes 0.2),
string literals, and variable references. -/
inductive Atom where
  | int (n : Int)
  | dec (mantissa : Nat) (digits : Nat)
  | str (s : String)
  | var (x : Sym)
deriving DecidableEq

/-- Argument expressions of the calls in the notebook: an atom, a list or
dict display of atoms, a subtraction of atoms (`width=duration - 50`), or a
nested single-constructor call such as `MeasureChannel(0)`. -/
inductive Arg where
  | atom (a : Atom)
  | list (xs : List Atom)
  | dict (xs : List (Atom × Atom))
  | sub (a b : Atom)
  | callArg (f : Sym) (xs : List Atom)
deriving DecidableEq

/-- Right-hand-side expressions occurring in the notebook. -/
inductive Expr where
  /-- A bare atom, as in `duration = 16000`. -/
  | atomE (a : Atom)
  /-- `f(args, kwargs)` with `f` a name. -/
  | call (f : Sym) (args : List Arg) (kwargs : List (Sym × Arg))
  /-- `f(kwargs)(arg2)`, as in `GaussianSquare(...)(MeasureChannel(0))`. -/
  | callCall (f : Sym) (kwargs : List (Sym × Arg)) (arg2 : Arg)
  /-- `obj.m(args)`, as in `sched.draw()`. -/
  | methodCall (obj : Sym) (m : Sym) (args : List Arg)
  /-- `x + y` on two schedule variables, as in `measure_tx + measure_rx`. -/
  | addVars (x y : Sym)
  /-- `f(args) << obj.att`, as in `measure([0, 1], backend) << sched.duration`. -/
  | callShiftedByAttr (f : Sym) (args : List Arg) (obj : Sym) (att : Sym)
deriving DecidableEq

/-- Statements.  The error-handling and definition forms (`try`/`except`,
`raise`, `assert`, `def`, `class`) are included so that their absence from
the notebook is expressible; the transcription below never uses them. -/
inductive Stmt where
  | importFrom (m : Module) (names : List Sym)
  | importModule (m : Module)
  | assign (target : Sym) (e : Expr)
  | augAdd (target : Sym) (e : Expr)
  | exprStmt (e : Expr)
  | magic (m : MagicName)
  | tryExceptStmt
  | raiseStmt
  | assertStmt
  | defStmt (n : Sym)
  | classStmt (n : Sym)
deriving DecidableEq

/-- A notebook cell: markdown prose, or a code cell with its statements. -/
inductive Cell where
  | markdown
  | code (stmts : List Stmt)
deriving DecidableEq

/-- Code cell 1: the imports and `backend = FakeAlmaden()`. -/
def cell1 : List Stmt :=
  [ .importFrom .qiskit [.IBMQ],
    .importFrom .qiskit_pulse [.Schedule],
    .importFrom .qiskit_scheduler [.measure_all],
    .importFrom .qiskit_test_mock [.FakeAlmaden],
    .assign .backend (.call .FakeAlmaden [] []) ]

/-- Code cell 2: build a schedule, append `measure_all(backend)`, draw. -/
def cell2 : List Stmt :=
  [ .assign .sched (.call .Schedule [] [(.name, .atom (.str (r"Measurement scheduling example")))]),
    .augAdd .sched (.call .measure_all [.atom (.var .backend)] []),
    .exprStmt (.methodCall .sched .draw []) ]

/-- Code cell 4: `sched = measure(qubits=[0], backend=backend, qubit_mem_slots={0: 1})`. -/
def cell4 : List Stmt :=
  [ .importFrom .qiskit_scheduler [.measure],
    .assign .sched (.call .measure []
      [ (.qubits, .list [.int 0]),
        (.backend, .atom (.var .backend)),
        (.qubit_mem_slots, .dict [(.int 0, .int 1)]) ]) ]

/-- Code cell 7: `duration = 16000` and the two GaussianSquare stimulus
pulses on MeasureChannel(0) and MeasureChannel(1). -/
def cell7 : List Stmt :=
  [ .importFrom .qiskit_pulse [.MeasureChannel, .AcquireChannel, .MemorySlot, .GaussianSquare, .Acquire],
    .assign .duration (.atomE (.int 16000)),
    .assign .measure_tx (.callCall .GaussianSquare
      [ (.duration, .atom (.var .duration)),
        (.amp, .atom (.dec 2 1)),
        (.sigma, .atom (.int 10)),
        (.width, .sub (.var .duration) (.int 50)) ]
      (.callArg .MeasureChannel [.int 0])),
    .augAdd .measure_tx (.callCall .GaussianSquare
      [ (.duration, .atom (.var .duration)),
        (.amp, .atom (.dec 2 1)),
        (.sigma, .atom (.int 10)),
        (.width, .sub (.var .duration) (.int 50)) ]
      (.callArg .MeasureChannel [.int 1])) ]

/-- Code cell 9: `acquire = Acquire(duration)` and its two applications to
(AcquireChannel(i), MemorySlot(i)) for i = 0, 1. -/
def cell9 : List Stmt :=
  [ .assign .acquire (.call .Acquire [.atom (.var .duration)] []),
    .assign .measure_rx (.call .acquire
      [.callArg .AcquireChannel [.int 0], .callArg .MemorySlot [.int 0]] []),
    .augAdd .measure_rx (.call .acquire
      [.callArg .AcquireChannel [.int 1], .callArg .MemorySlot [.int 1]] []) ]

/-- Code cell 11: `measure_sched = measure_tx + measure_rx` and draw. -/
def cell11 : List Stmt :=
  [ .assign .measure_sched (.addVars .measure_tx .measure_rx),
    .exprStmt (.methodCall .measure_sched .draw []) ]

/-- Code cell 12: the version-table magics. -/
def cell12 : List Stmt :=
  [ .importModule .qiskit_tools_jupyter,
    .magic .qiskit_version_table,
    .magic .qiskit_copyright ]

/-- The notebook's thirteen cells in order (cells 0, 3, 5, 6, 8 and 10 are
markdown prose). -/
def notebook : List Cell :=
  [ .markdown,
    .code cell1,
    .code cell2,
    .markdown,
    .code cell4,
    .markdown,
    .markdown,
    .code cell7,
    .markdown,
    .code cell9,
    .markdown,
    .code cell11,
    .code cell12 ]

/-- The fenced code block inside markdown cell 0:
`from qiskit.scheduler import measure` and
`sched += measure([0, 1], backend) << sched.duration`. -/
def snippetCell0 : List Stmt :=
  [ .importFrom .qiskit_scheduler [.measure],
    .augAdd .sched (.callShiftedByAttr .measure
      [.list [.int 0, .int 1], .atom (.var .backend)] .sched .duration) ]

/-- Statement lists of the notebook's code cells, in order. -/
def codeCells : List (List Stmt) :=
  notebook.filterMap (fun c => match c with
    | .code ss => some ss
    | .markdown => none)

/-- All statements of the notebook's code cells, in order. -/
def codeStmts : List Stmt := codeCells.foldr (· ++ ·) []

/-- All statements of the notebook, code cells first, then the fenced code
block of markdown cell 0. -/
def allStmts : List Stmt := codeStmts ++ snippetCell0

/-- The sentence of markdown cell 8 stating where measurement-map grouping
is enforced. -/
def assembleTimeSentence : String :=
  r"When building up a pulse schedule, be sure to add all the acquire pulses required by the backend you plan to run on. This is validated at assemble time."

/-! ### Extraction helpers over the AST -/

/-- The right-hand-side expressions of a statement. -/
def rhsExprs : Stmt → List Expr
  | .assign _ e => [e]
  | .augAdd _ e => [e]
  | .exprStmt e => [e]
  | _ => []

/-- All right-hand-side expressions of a statement list. -/
def exprsOf (ss : List Stmt) : List Expr := ss.flatMap rhsExprs

/-- Positional and keyword argument lists of every call whose head is `f`. -/
def callsTo (f : Sym) (ss : List Stmt) : List (List Arg × List (Sym × Arg)) :=
  (exprsOf ss).filterMap (fun e => match e with
    | .call g args kw => if g = f then some (args, kw) else none
    | .callShiftedByAttr g args _ _ => if g = f then some (args, []) else none
    | _ => none)

/-- Keyword arguments and applied argument of every `GaussianSquare(...)(...)`
construction. -/
def gsConstructions (ss : List Stmt) : List (List (Sym × Arg) × Arg) :=
  (exprsOf ss).filterMap (fun e => match e with
    | .callCall g kw a2 => if g = .GaussianSquare then some (kw, a2) else none
    | _ => none)

/-- The (acquire-channel index, memory-slot index) atom pairs of every
application of the `acquire` command variable. -/
def acquirePairs (ss : List Stmt) : List (Atom × Atom) :=
  (exprsOf ss).filterMap (fun e => match e with
    | .call .acquire [.callArg .AcquireChannel [a], .callArg .MemorySlot [b]] [] => some (a, b)
    | _ => none)

/-- Symbols bound by `from ... import ...` statements of the code cells. -/
def importedSyms : List Sym :=
  codeStmts.flatMap (fun s => match s with
    | .importFrom _ ns => ns
    | _ => [])

/-- Integer bindings made by plain literal assignments, in order. -/
def intBindings (ss : List Stmt) : List (Sym × Int) :=
  ss.filterMap (fun s => match s with
    | .assign t (.atomE (.int n)) => some (t, n)
    | _ => none)

/-- Value of an integer variable bound by a literal assignment. -/
def lookupInt (ss : List Stmt) (x : Sym) : Option Int :=
  (intBindings ss).lookup x

/-- Integer value of an atom under the notebook's literal bindings. -/
def evalAtom (ss : List Stmt) : Atom → Option Int
  | .int n => some n
  | .var x => lookupInt ss x
  | _ => none

/-- Integer value of an argument under the notebook's literal bindings. -/
def evalArg (ss : List Stmt) : Arg → Option Int
  | .atom a => evalAtom ss a
  | .sub a b =>
      match evalAtom ss a, evalAtom ss b with
      | some x, some y => some (x - y)
      | _, _ => none
  | _ => none

/-! ## Part 2: framework semantics modelled from the spec

The qiskit framework the notebook calls is not shipped under src/, so the
behaviour it documents is modelled here from the spec and the notebook's own
prose, and the claims about behaviour are settled against these models. -/

/-- Modelled from the spec: the `meas_map` grouping semantics of the missing
framework.  A measurement map is a list of groups of qubit indices; two
qubits must be acquired together exactly when some group contains both
("qubits 0, 1 and 2 can be acquired independently, but qubits 3 and 4 must
be acquired together"). -/
def acquiredTogether (meas_map : List (List Nat)) (a b : Nat) : Bool :=
  meas_map.any (fun g => decide (a ∈ g) && decide (b ∈ g))

/-- Proposition form of the grouping constraint: some group of the map
contains both qubits. -/
def MustAcquireTogether (meas_map : List (List Nat)) (a b : Nat) : Prop :=
  ∃ g, g ∈ meas_map ∧ a ∈ g ∧ b ∈ g

/-- The example measurement map `[[0], [1], [2], [3, 4]]` presented in
markdown cell 8 of the notebook. -/
def meas_map_example : List (List Nat) := [[0], [1], [2], [3, 4]]

/-- Modelled from the spec: the memory slot the missing scheduler `measure`
builder acquires a qubit into.  The optional `qubit_mem_slots` mapping
overrides the default, which stores qubit i into memory slot i. -/
def measureMemSlot (qubit_mem_slots : List (Nat × Nat)) (q : Nat) : Nat :=
  match qubit_mem_slots.lookup q with
  | some s => s
  | none => q

/-- Modelled from the spec: the qubit-to-memory-slot assignment produced by
the missing scheduler `measure` builder for the given qubits. -/
def measureSlotAssignment (qubits : List Nat) (qubit_mem_slots : List (Nat × Nat)) :
    List (Nat × Nat) :=
  qubits.map (fun q => (q, measureMemSlot qubit_mem_slots q))

/-- Modelled from the spec: the hardware channels a pulse schedule
addresses (drive channels appear in gate schedules preceding measurement). -/
inductive Channel where
  | MeasureChannel (i : Nat)
  | AcquireChannel (i : Nat)
  | DriveChannel (i : Nat)
deriving DecidableEq

/-- Modelled from the spec: a scheduled instruction, with its channel, its
start time and its duration in cycles. -/
structure Inst where
  channel : Channel
  startTime : Nat
  duration : Nat
deriving DecidableEq

/-- Modelled from the spec: a pulse schedule is a time-ordered container of
instructions on hardware channels. -/
abbrev Sched := List Inst

/-- The `duration` / stop time of a schedule: when its last instruction
ends (0 for an empty schedule). -/
def stopTime (s : Sched) : Nat :=
  (s.map (fun i => i.startTime + i.duration)).foldr max 0

/-- Channels occupied by a schedule. -/
def channelsOf (s : Sched) : List Channel := s.map Inst.channel

/-- Stop time of a schedule restricted to one channel. -/
def chStopTime (s : Sched) (c : Channel) : Nat :=
  ((s.filter (fun i => i.channel == c)).map (fun i => i.startTime + i.duration)).foldr max 0

/-- Modelled from the spec: the `<<` operator shifts every instruction of a
schedule later by `t` cycles. -/
def shiftSched (s : Sched) (t : Nat) : Sched :=
  s.map (fun i => ⟨i.channel, i.startTime + t, i.duration⟩)

/-- Channels occupied by both schedules. -/
def commonChannels (a b : Sched) : List Channel :=
  (channelsOf a).filter (fun c => decide (c ∈ channelsOf b))

/-- Modelled from the spec: the time at which `+` / `append` inserts its
right operand: the left schedule's stop time over the channels the two
schedules share ("Every instruction is on a different channel, so appending
schedules the instructions at time 0" — with no shared channel the insert
time is 0). -/
def insertTime (a b : Sched) : Nat :=
  ((commonChannels a b).map (chStopTime a)).foldr max 0

/-- Modelled from the spec: schedule addition `a + b` keeps `a` and inserts
`b` shifted by the insert time. -/
def appendSched (a b : Sched) : Sched :=
  a ++ shiftSched b (insertTime a b)

/-- The literal readout duration `duration = 16000` bound in code cell 7. -/
def durationLit : Nat := 16000

/-- The schedule built by code cell 7: one GaussianSquare stimulus pulse on
each of MeasureChannel(0) and MeasureChannel(1), combined with `+=`. -/
def measure_tx_sched : Sched :=
  appendSched [⟨.MeasureChannel 0, 0, durationLit⟩] [⟨.MeasureChannel 1, 0, durationLit⟩]

/-- The schedule built by code cell 9: one Acquire instruction on each of
AcquireChannel(0) and AcquireChannel(1), combined with `+=`. -/
def measure_rx_sched : Sched :=
  appendSched [⟨.AcquireChannel 0, 0, durationLit⟩] [⟨.AcquireChannel 1, 0, durationLit⟩]

/-- The schedule built by code cell 11: `measure_sched = measure_tx + measure_rx`. -/
def measure_sched_sched : Sched := appendSched measure_tx_sched measure_rx_sched

/-- The idiom of markdown cell 0: `sched + (m << sched.duration)`. -/
def idiomAppend (s m : Sched) : Sched :=
  appendSched s (shiftSched m (stopTime s))

/-- The measurement part of the idiom's result: the shifted copy of `m`
that `idiomAppend` adds after the instructions of `s`. -/
def measPart (s m : Sched) : Sched :=
  shiftSched (shiftSched m (stopTime s)) (insertTime s (shiftSched m (stopTime s)))

/-! ## Part 3: predicates formalising the claims over the AST -/

/-- An atom that is a literal (an identifier reference is not). -/
def isLiteralAtom : Atom → Bool
  | .int _ => true
  | .dec _ _ => true
  | .str _ => true
  | .var _ => false

/-- An argument whose value is given literally. -/
def isLiteralArg : Arg → Bool
  | .atom a => isLiteralAtom a
  | .list xs => xs.all isLiteralAtom
  | .dict xs => xs.all (fun p => isLiteralAtom p.1 && isLiteralAtom p.2)
  | .sub _ _ => false
  | .callArg _ _ => false

/-- All positional and keyword arguments of an expression are literal. -/
def exprArgsLiteral : Expr → Bool
  | .call _ args kw => args.all isLiteralArg && kw.all (fun p => isLiteralArg p.2)
  | .callCall _ kw a2 => kw.all (fun p => isLiteralArg p.2) && isLiteralArg a2
  | .callShiftedByAttr _ args _ _ => args.all isLiteralArg
  | _ => false

/-- Strict reading of the spec sentence behind claim C5: a statement is
an import of external symbols, a call to such a symbol with literal
arguments, or a draw call. -/
def stmtAllowedStrict : Stmt → Bool
  | .importFrom _ _ => true
  | .importModule _ => true
  | .assign _ e => exprArgsLiteral e
  | .augAdd _ e => exprArgsLiteral e
  | .exprStmt (.methodCall _ .draw []) => true
  | _ => false

/-- An argument that is a literal, a reference to a previously bound name,
a display of such atoms, the literal difference `duration - 50`, or a
channel-constructor call on integer indices. -/
def argAllowedLiberal : Arg → Bool
  | .atom _ => true
  | .list _ => true
  | .dict _ => true
  | .sub (.var .duration) (.int 50) => true
  | .sub _ _ => false
  | .callArg _ xs => xs.all (fun a => match a with
      | .int _ => true
      | _ => false)

/-- Expressions actually occurring in the notebook's cells: atoms, calls
whose arguments satisfy `argAllowedLiberal`, schedule addition of two bound
names, and a call shifted by a schedule duration. -/
def exprAllowedLiberal : Expr → Bool
  | .atomE _ => true
  | .call _ args kw => args.all argAllowedLiberal && kw.all (fun p => argAllowedLiberal p.2)
  | .callCall _ kw a2 => kw.all (fun p => argAllowedLiberal p.2) && argAllowedLiberal a2
  | .methodCall _ _ _ => false
  | .addVars _ _ => true
  | .callShiftedByAttr _ args _ _ => args.all argAllowedLiberal

/-- Liberal statement predicate for the amended claim C5: imports, magics,
assignments and augmented assignments of allowed expressions, and draw
calls. -/
def stmtAllowedLiberal : Stmt → Bool
  | .importFrom _ _ => true
  | .importModule _ => true
  | .magic _ => true
  | .assign _ e => exprAllowedLiberal e
  | .augAdd _ e => exprAllowedLiberal e
  | .exprStmt (.methodCall _ .draw []) => true
  | _ => false

/-- A statement that performs error handling. -/
def isErrorHandling : Stmt → Bool
  | .tryExceptStmt => true
  | .raiseStmt => true
  | .assertStmt => true
  | _ => false

/-- A statement that defines a function or a class. -/
def definesFunctionOrClass : Stmt → Bool
  | .defStmt _ => true
  | .classStmt _ => true
  | _ => false

/-- Whether the character list `p` is a prefix of `s`. -/
def charPrefix : List Char → List Char → Bool
  | [], _ => true
  | _ :: _, [] => false
  | a :: as, b :: bs => a == b && charPrefix as bs

/-- Whether the character list `p` occurs contiguously inside `s`. -/
def charSub (p : List Char) : List Char → Bool
  | [] => p.isEmpty
  | b :: bs => charPrefix p (b :: bs) || charSub p bs

/-- Well-formedness of one `measure` invocation as claim C2 states it: a
list of integer qubit indices and the backend object, positionally or by
keyword, with at most an optional integer `qubit_mem_slots` dictionary. -/
def measureCallOk : List Arg × List (Sym × Arg) → Bool
  | ([.list qs, .atom (.var .backend)], []) =>
      qs.all (fun a => match a with
        | .int _ => true
        | _ => false)
  | ([], [(.qubits, .list qs), (.backend, .atom (.var .backend))]) =>
      qs.all (fun a => match a with
        | .int _ => true
        | _ => false)
  | ([], [(.qubits, .list qs), (.backend, .atom (.var .backend)), (.qubit_mem_slots, .dict ms)]) =>
      qs.all (fun a => match a with
        | .int _ => true
        | _ => false) &&
      ms.all (fun p => match p with
        | (.int _, .int _) => true
        | _ => false)
  | _ => false

/-! ## Part 4: the claims -/

/-- Claim C1: for the measurement map [[0], [1], [2], [3, 4]] presented in
the notebook, qubits 0, 1 and 2 each form a singleton group and may be
acquired independently (no group contains two of them), while qubits 3 and
4 share one group and must be acquired together; in general, two qubits
must be acquired together exactly when some inner list of the map contains
both. -/
theorem C1_meas_map_grouping :
    ([0] ∈ meas_map_example ∧ [1] ∈ meas_map_example ∧ [2] ∈ meas_map_example ∧
      [3, 4] ∈ meas_map_example) ∧
    (acquiredTogether meas_map_example 0 1 = false ∧
     acquiredTogether meas_map_example 0 2 = false ∧
     acquiredTogether meas_map_example 1 2 = false ∧
     acquiredTogether meas_map_example 3 4 = true) ∧
    (∀ m : List (List Nat), ∀ a b : Nat,
      acquiredTogether m a b = true ↔ MustAcquireTogether m a b) := by
  refine ⟨by decide, by decide, ?_⟩
  intro m a b
  unfold acquiredTogether MustAcquireTogether
  simp [List.any_eq_true, Bool.and_eq_true, decide_eq_true_eq]

/-- Claim C2: every `measure` invocation in the notebook passes a list of
integer qubit indices and the backend object, optionally with a
`qubit_mem_slots` mapping; and the modelled builder, called with
qubits=[0] and qubit_mem_slots mapping 0 to 1, stores qubit 0 in memory
slot 1 instead of the default slot 0. -/
theorem C2_measure_invocations :
    callsTo .measure allStmts =
      [ ([], [(.qubits, .list [.int 0]), (.backend, .atom (.var .backend)),
              (.qubit_mem_slots, .dict [(.int 0, .int 1)])]),
        ([.list [.int 0, .int 1], .atom (.var .backend)], []) ] ∧
    (callsTo .measure allStmts).all measureCallOk = true ∧
    measureSlotAssignment [0] [(0, 1)] = [(0, 1)] ∧
    measureSlotAssignment [0] [] = [(0, 0)] := by
  refine ⟨by decide, by decide, by decide, by decide⟩

/-- Claim C3: `Acquire` is constructed once, from the duration variable
alone with no other parameter, and its two applications each supply exactly
one acquire channel with one memory slot: (AcquireChannel(0), MemorySlot(0))
and (AcquireChannel(1), MemorySlot(1)). -/
theorem C3_acquire_usage :
    callsTo .Acquire allStmts = [([.atom (.var .duration)], [])] ∧
    callsTo .acquire allStmts =
      [ ([.callArg .AcquireChannel [.int 0], .callArg .MemorySlot [.int 0]], []),
        ([.callArg .AcquireChannel [.int 1], .callArg .MemorySlot [.int 1]], []) ] := by
  refine ⟨by decide, by decide⟩

/-- Claim C4: both GaussianSquare constructions in the notebook carry
exactly the keyword parameters duration, amp (amplitude), sigma and width,
with identical values; under the binding duration = 16000 the width
argument evaluates to 15950 = 16000 - 50, strictly below the duration. -/
theorem C4_gaussian_square :
    gsConstructions allStmts =
      [ ([(.duration, .atom (.var .duration)), (.amp, .atom (.dec 2 1)),
          (.sigma, .atom (.int 10)), (.width, .sub (.var .duration) (.int 50))],
         .callArg .MeasureChannel [.int 0]),
        ([(.duration, .atom (.var .duration)), (.amp, .atom (.dec 2 1)),
          (.sigma, .atom (.int 10)), (.width, .sub (.var .duration) (.int 50))],
         .callArg .MeasureChannel [.int 1]) ] ∧
    (gsConstructions allStmts).all
      (fun g => g.1.map Prod.fst == [Sym.duration, .amp, .sigma, .width]) = true ∧
    ((gsConstructions allStmts).map Prod.fst).getD 0 [] =
      ((gsConstructions allStmts).map Prod.fst).getD 1 [] ∧
    lookupInt codeStmts .duration = some 16000 ∧
    (gsConstructions allStmts).all
      (fun g => (g.1.lookup .width).any (fun w => evalArg codeStmts w == some 15950)) = true ∧
    evalArg codeStmts (.sub (.var .duration) (.int 50)) = some 15950 ∧
    (15950 : Int) < 16000 := by
  refine ⟨by decide, by decide, by decide, by decide, by decide, by decide, by decide⟩

/-- Claim C5 (counterexample): taken strictly, the claim that every code
cell consists only of imports, calls with literal arguments and draw calls
fails on the code: `sched += measure_all(backend)` passes the variable
`backend`, not a literal, and `duration = 16000` is a plain literal
assignment, not an import, a call or a draw call. -/
theorem C5_counterexample :
    Stmt.augAdd .sched (.call .measure_all [.atom (.var .backend)] []) ∈ codeStmts ∧
    stmtAllowedStrict (Stmt.augAdd .sched (.call .measure_all [.atom (.var .backend)] [])) = false ∧
    Stmt.assign .duration (.atomE (.int 16000)) ∈ codeStmts ∧
    stmtAllowedStrict (Stmt.assign .duration (.atomE (.int 16000))) = false := by
  refine ⟨by decide, by decide, by decide, by decide⟩

/-- Claim C5 (amended): every code cell of the notebook consists only
of imports, Jupyter magics, literal assignments, calls to bound symbols whose
arguments are literals, bound names, channel constructors on integer
indices or the literal difference duration - 50, schedule combination of
bound names, and draw calls. -/
theorem C5_code_cell_shape :
    codeCells.all (fun ss => ss.all stmtAllowedLiberal) = true := by
  decide

/-- Claim C6: no statement of any code cell performs error handling (no
try/except, raise or assert), and the notebook's prose places validation of
the measurement-map grouping constraint at assemble time in the external
framework. -/
theorem C6_no_error_handling :
    codeStmts.any isErrorHandling = false ∧
    charSub ((r"validated at assemble time").data) (assembleTimeSentence.data) = true := by
  refine ⟨by decide, by decide⟩

/-- Claim C7: each operation the notebook invokes — measure, measure_all,
GaussianSquare, Acquire, MeasureChannel, AcquireChannel, MemorySlot and
Schedule — is bound by a `from ... import` of a qiskit module in a code
cell, every imported module path starts with "qiskit", and no statement
defines a function or class. -/
theorem C7_operations_imported :
    [Sym.measure, .measure_all, .GaussianSquare, .Acquire, .MeasureChannel,
     .AcquireChannel, .MemorySlot, .Schedule].all
      (fun x => importedSyms.contains x) = true ∧
    [Module.qiskit, .qiskit_pulse, .qiskit_scheduler, .qiskit_test_mock,
     .qiskit_tools_jupyter].all
      (fun m => charPrefix ((r"qiskit").data) m.path.data) = true ∧
    codeStmts.any definesFunctionOrClass = false := by
  refine ⟨by decide, by decide, by decide⟩

/-- Claim C8: the hand-built measure_sched = measure_tx + measure_rx holds
four instructions on four pairwise distinct channels (MeasureChannel 0 and
1, AcquireChannel 0 and 1), every instruction starts at time 0, and all
four stop together at 16000, so they run simultaneously. -/
theorem C8_simultaneous_measurement :
    measure_sched_sched =
      [ ⟨.MeasureChannel 0, 0, 16000⟩, ⟨.MeasureChannel 1, 0, 16000⟩,
        ⟨.AcquireChannel 0, 0, 16000⟩, ⟨.AcquireChannel 1, 0, 16000⟩ ] ∧
    (channelsOf measure_sched_sched).Nodup ∧
    measure_sched_sched.all (fun i => i.startTime == 0) = true ∧
    measure_sched_sched.all (fun i => i.startTime + i.duration == 16000) = true := by
  refine ⟨by decide, by decide, by decide, by decide⟩

/-- Every member of a list of naturals is below its foldr max. -/
theorem le_foldr_max (l : List Nat) (x : Nat) (hx : x ∈ l) : x ≤ l.foldr max 0 := by
  induction l with
  | nil => cases hx
  | cons a t ih =>
    rcases List.mem_cons.mp hx with h | h
    · subst h
      exact Nat.le_max_left _ _
    · exact le_trans (ih h) (Nat.le_max_right _ _)

/-- Every instruction of a schedule ends no later than the schedule's stop
time. -/
theorem le_stopTime (s : Sched) (i : Inst) (hi : i ∈ s) :
    i.startTime + i.duration ≤ stopTime s :=
  le_foldr_max _ _ (List.mem_map_of_mem _ hi)

/-- Shifting a schedule does not change its channels. -/
theorem channelsOf_shiftSched (s : Sched) (t : Nat) :
    channelsOf (shiftSched s t) = channelsOf s := by
  unfold channelsOf shiftSched
  rw [List.map_map]
  rfl

/-- Shifting a schedule by 0 is the identity. -/
theorem shiftSched_zero (s : Sched) : shiftSched s 0 = s := by
  unfold shiftSched
  simp only [Nat.add_zero]
  exact List.map_id s

/-- A pre-existing schedule already busy on a measurement channel: one
instruction on MeasureChannel(0) ending at time 4. -/
def schedBusy : Sched := [⟨.MeasureChannel 0, 0, 4⟩]

/-- A measurement schedule that also uses MeasureChannel(0). -/
def measOnBusy : Sched := [⟨.MeasureChannel 0, 0, 8⟩]

/-- Claim C9 (counterexample): the claim fails for a schedule that already
occupies a channel of the measurement schedule.  Here sched.duration = 4,
but the appended measurement is inserted at the shared-channel stop time on
top of the `<<` shift and so starts at 8, not at 4 where the last
pre-existing instruction ends. -/
theorem C9_counterexample :
    stopTime schedBusy = 4 ∧
    idiomAppend schedBusy measOnBusy =
      [⟨.MeasureChannel 0, 0, 4⟩, ⟨.MeasureChannel 0, 8, 8⟩] ∧
    measPart schedBusy measOnBusy = [⟨.MeasureChannel 0, 8, 8⟩] ∧
    (measPart schedBusy measOnBusy).all
      (fun j => j.startTime == stopTime schedBusy) = false := by
  refine ⟨by decide, by decide, by decide, by decide⟩

/-- Claim C9 (amended): for every schedule `s` with no instruction on any
channel of the measurement schedule `m` (the notebook's situation, where
`s` holds gate pulses and `m` the measurement), and `m` starting at time 0,
the idiom `s + (m << s.duration)` shifts `m` by exactly `stopTime s`: the
measurement's earliest instruction starts precisely at `stopTime s`, where
the last pre-existing instruction ends, no measurement instruction starts
earlier, and no measurement instruction overlaps in time with any
instruction of `s`. -/
theorem C9_shift_to_end (s m : Sched)
    (hdisj : ∀ c ∈ channelsOf m, c ∉ channelsOf s)
    (h0 : ∃ i ∈ m, i.startTime = 0) :
    measPart s m = shiftSched m (stopTime s) ∧
    (∃ j ∈ measPart s m, j.startTime = stopTime s) ∧
    (∀ j ∈ measPart s m, stopTime s ≤ j.startTime) ∧
    (∀ i ∈ s, ∀ j ∈ measPart s m, i.startTime + i.duration ≤ j.startTime) := by
  have hch : channelsOf (shiftSched m (stopTime s)) = channelsOf m :=
    channelsOf_shiftSched m (stopTime s)
  have hcommon : commonChannels s (shiftSched m (stopTime s)) = [] := by
    unfold commonChannels
    simp only [hch]
    apply List.filter_eq_nil_iff.mpr
    intro c hc
    simp only [decide_eq_true_eq]
    intro hm
    exact hdisj c hm hc
  have hins : insertTime s (shiftSched m (stopTime s)) = 0 := by
    unfold insertTime
    rw [hcommon]
    rfl
  have hmp : measPart s m = shiftSched m (stopTime s) := by
    unfold measPart
    rw [hins]
    exact shiftSched_zero _
  refine ⟨hmp, ?_, ?_, ?_⟩
  · obtain ⟨i, hi, hi0⟩ := h0
    refine ⟨⟨i.channel, i.startTime + stopTime s, i.duration⟩, ?_, ?_⟩
    · rw [hmp]
      unfold shiftSched
      exact List.mem_map_of_mem _ hi
    · simp [hi0]
  · intro j hj
    rw [hmp] at hj
    unfold shiftSched at hj
    obtain ⟨i, hi, rfl⟩ := List.mem_map.mp hj
    exact Nat.le_add_left _ _
  · intro i1 hi1 j hj
    rw [hmp] at hj
    unfold shiftSched at hj
    obtain ⟨i, hi, rfl⟩ := List.mem_map.mp hj
    exact le_trans (le_stopTime s i1 hi1) (Nat.le_add_left _ _)

/-- A gate schedule on a drive channel, stopping at time 100. -/
def schedDemo : Sched := [⟨.DriveChannel 0, 0, 100⟩]

/-- The measurement schedule of the notebook's hand-built example, as the
idiom would append it for qubits 0 and 1. -/
def measDemo : Sched :=
  [ ⟨.MeasureChannel 0, 0, 16000⟩, ⟨.MeasureChannel 1, 0, 16000⟩,
    ⟨.AcquireChannel 0, 0, 16000⟩, ⟨.AcquireChannel 1, 0, 16000⟩ ]

/-- Witness for the amended claim C9 at a concrete gate schedule and the
notebook's measurement schedule, discharging both hypotheses by decide. -/
theorem C9_shift_to_end_witness :
    measPart schedDemo measDemo = shiftSched measDemo (stopTime schedDemo) :=
  (C9_shift_to_end schedDemo measDemo (by decide) (by decide)).1

/-- Claim C10: both acquire applications of the hand-built example pair
AcquireChannel(i) with MemorySlot(i) for i = 0, 1 — the identity mapping,
which is exactly the default of the modelled `measure` builder (qubit q
goes to slot q when `qubit_mem_slots` is absent) and what the
`qubit_mem_slots` option overrides (it sends qubit 0 to slot 1). -/
theorem C10_identity_memory_mapping :
    acquirePairs allStmts = [(.int 0, .int 0), (.int 1, .int 1)] ∧
    (acquirePairs allStmts).all (fun p => p.1 == p.2) = true ∧
    (∀ q : Nat, measureMemSlot [] q = q) ∧
    measureMemSlot [(0, 1)] 0 = 1 ∧
    measureSlotAssignment [0, 1] [] = [(0, 0), (1, 1)] := by
  refine ⟨by decide, by decide, fun q => rfl, by decide, by decide⟩

end Pulse
